import Mathlib

/-!
Verification development for the dc.js chart-lifecycle / cross-chart
coordination core.  Definitions are shallow embeddings of the JavaScript
source files (`src/charts/cbox-menu.js`, `src/base/bubble-mixin.js`,
`src/base/legend.js`, the number-display chart) together with models of
the base-mixin filter storage, event system and redraw broadcaster, which
are described by the specification (sections 4.1-4.6) but whose source
files are not part of this listing.
-/

namespace DcJs

/-- A filter value: either a plain (scalar) value or a range-shaped value
(a two-element ordered pair `[lo, hi]`, as produced by `RangedFilter`).
Scalars are modelled as integers. -/
inductive FilterValue where
  | plain (v : Int)
  | range (lo hi : Int)
deriving DecidableEq, Repr

/-- Modelled from the spec: equality of filter values used by the filter
storage (missing `base-mixin.js` / `filters.js`).  Spec 4.1: "Equality for
filter values must special-case range-shaped values (two-element ordered
pairs) — two ranges are equal iff both endpoints match."  Plain values
compare by value; a plain value never equals a range. -/
def filterValueEq : FilterValue → FilterValue → Bool
  | .plain a, .plain b => a == b
  | .range a b, .range c d => a == c && b == d
  | _, _ => false

/-- Modelled from the spec: the per-chart filter storage of `BaseMixin`
(missing from the listing), spec 4.1 and section 3.  A chart keeps an
ordered sequence of active filters mirrored onto the external dimension's
predicate, plus the filter-type tag (`rangeBased` is true when the chart's
filter type is `RangedFilter`). -/
structure FilterChart where
  filters : List FilterValue
  rangeBased : Bool
  dimensionFilters : List FilterValue
deriving DecidableEq, Repr

/-- Modelled from the spec: `hasFilter(value)` — true iff a filter equal to
the given value is active (spec 4.1). -/
def hasFilterVal (c : FilterChart) (v : FilterValue) : Bool :=
  c.filters.any (fun w => filterValueEq w v)

/-- Modelled from the spec: `hasFilter()` with no argument — true iff one
or more filters are active (spec 4.1). -/
def hasFilter (c : FilterChart) : Bool :=
  !c.filters.isEmpty

/-- Remove the first member equal (by `filterValueEq`) to `v` from an
ordered filter list; later members are untouched.  Modelled from the spec
(4.1): toggling "removes" the equal member. -/
def removeFirstFilter (v : FilterValue) : List FilterValue → List FilterValue
  | [] => []
  | w :: ws => if filterValueEq w v then ws else w :: removeFirstFilter v ws

/-- Push the chart's mirrored filter list onto the external dimension
(spec 4.1 / 6: the core calls `dimension.filter(...)` on every filter
mutation). -/
def syncDimension (c : FilterChart) : FilterChart :=
  { c with dimensionFilters := c.filters }

/-- Modelled from the spec: `filter(value)` with an argument (spec 4.1):
toggles that value's membership when it already has an equal member
(remove), else adds it — unless the filter type is `RangedFilter`, in
which case the new value replaces the set rather than toggling.  Every
mutation also pushes the predicate onto the external dimension. -/
def applyFilter (c : FilterChart) (v : FilterValue) : FilterChart :=
  if c.rangeBased then
    syncDimension { c with filters := [v] }
  else if hasFilterVal c v then
    syncDimension { c with filters := removeFirstFilter v c.filters }
  else
    syncDimension { c with filters := c.filters ++ [v] }

/-- Modelled from the spec: `filterAll()` — clears every filter on this
chart's dimension and its mirror (spec 4.1). -/
def filterAll (c : FilterChart) : FilterChart :=
  syncDimension { c with filters := [] }

/-- Modelled from the spec: `replaceFilter(valueOrValues)` — clears then
applies the given single value or list (spec 4.1). -/
def replaceFilterList (c : FilterChart) (vs : List FilterValue) : FilterChart :=
  vs.foldl applyFilter (filterAll c)

/-- The value returned by the no-argument form of `filter()`: a single
value, an ordered sequence, or `null`. -/
inductive FilterResult where
  | nullR
  | single (v : FilterValue)
  | seq (vs : List FilterValue)
deriving DecidableEq, Repr

/-- Modelled from the spec: `filter()` with no argument returns the current
filters — the single value if exactly one is active, else the ordered
sequence, else `null` (spec 4.1). -/
def filterNoArg (c : FilterChart) : FilterResult :=
  match c.filters with
  | [] => .nullR
  | [v] => .single v
  | vs => .seq vs

/-! ### Event system and filter-change controller

`events.trigger` (from the missing `core/events.js`) is modelled from the
spec: the closure passed to it is queued as one deferred task (spec 4.6:
"this entire protocol runs as a single deferred unit of work (queued as
one task)"; spec 9: "an explicit pending-flush task-queue abstraction").
A task is the body of the closure actually passed to `events.trigger` in
the source of `cbox-menu.js` / `bubble-mixin.js`. -/

/-- A deferred closure queued through `events.trigger`.  `redrawGroup` is
the closure body of `CboxMenu.onChange` (only `self.redrawGroup()`);
`filterAndRedrawGroup k` is the closure body of `BubbleMixin.onClick`
(`this.filter(filter); this.redrawGroup()`). -/
inductive UITask where
  | redrawGroup
  | filterAndRedrawGroup (k : FilterValue)
deriving DecidableEq, Repr

/-- State of one interactive chart together with the event system's task
queue and a count of `redrawGroup` broadcasts performed so far. -/
structure CoordChart where
  fc : FilterChart
  multiple : Bool
  queue : List UITask
  broadcasts : Nat
deriving DecidableEq, Repr

/-- Modelled from the spec: `events.trigger(closure)` queues the closure as
one deferred task (missing `core/events.js`; spec 4.6 and 9). -/
def eventsTrigger (st : CoordChart) (t : UITask) : CoordChart :=
  { st with queue := st.queue ++ [t] }

/-- Run one queued task: `redrawGroup` performs one broadcast;
`filterAndRedrawGroup k` applies the filter toggle and then performs one
broadcast. -/
def runTask (st : CoordChart) : UITask → CoordChart
  | .redrawGroup => { st with broadcasts := st.broadcasts + 1 }
  | .filterAndRedrawGroup k =>
      { st with fc := applyFilter st.fc k, broadcasts := st.broadcasts + 1 }

/-- The value handed to `CboxMenu.onChange` by the DOM handler: nothing
selected (prompt), a single selected value, or (in multiple mode) the list
of checked values. -/
inductive CboxVal where
  | promptOnly
  | one (v : FilterValue)
  | many (vs : List FilterValue)
deriving DecidableEq, Repr

/-- `CboxMenu.onChange` (`src/charts/cbox-menu.js` lines 178-190):
`if (val && self._multiple) { self.replaceFilter([val]); } else if (val)
{ self.replaceFilter(val); } else { self.filterAll(); }` runs
synchronously, and then `events.trigger(function () { self.redrawGroup(); })`
queues only the broadcast. -/
def cboxOnChange (st : CoordChart) (val : CboxVal) : CoordChart :=
  let st' :=
    match val with
    | .many vs => { st with fc := replaceFilterList st.fc vs }
    | .one v => { st with fc := replaceFilterList st.fc [v] }
    | .promptOnly => { st with fc := filterAll st.fc }
  eventsTrigger st' .redrawGroup

/-- `BubbleMixin.onClick` (`src/base/bubble-mixin.js` lines 284-290):
`const filter = d.key; events.trigger(() => { this.filter(filter);
this.redrawGroup(); })` — both the filter toggle and the broadcast are
inside the queued closure. -/
def bubbleOnClick (st : CoordChart) (dKey : FilterValue) : CoordChart :=
  eventsTrigger st (.filterAndRedrawGroup dKey)

/-! ### Redraw broadcaster (spec 4.5, 7)

`redrawAll` / `renderAll` are in the missing `core/core.js` /
`core/chart-registry.js`; modelled from the spec: failures are collected,
not short-circuited, and reported collectively after the broadcast. -/

/-- A member chart of a group as seen by the broadcaster: an identifier,
how many redraws it has completed, and whether its external draw
collaborator throws (`DrawError`) when invoked. -/
structure GroupChart where
  id : Nat
  completedRedraws : Nat
  throws : Bool
deriving DecidableEq, Repr

/-- Modelled from the spec: `redrawAll(group)` (spec 4.5 / 7) — for each
chart in the group, in order, attempt `redraw()`; an exception from one
chart is caught and recorded, and the remaining charts are still
attempted; the aggregate failure set (the ids of the failing charts) is
returned to the caller after the broadcast completes. -/
def redrawAll : List GroupChart → List GroupChart × List Nat
  | [] => ([], [])
  | c :: cs =>
      let rest := redrawAll cs
      if c.throws then
        (c :: rest.1, c.id :: rest.2)
      else
        ({ c with completedRedraws := c.completedRedraws + 1 } :: rest.1, rest.2)

/-! ### Render/redraw state machine (spec 4.4)

`BaseMixin.render` / `BaseMixin.redraw` are in the missing
`base-mixin.js`; modelled from the spec: `idle → rendering → idle`,
`idle → redrawing → idle`, and entering a state the chart is already in is
a no-op returning the chart unchanged. -/

/-- Rendering state of a chart (spec 3: `idle | rendering | redrawing`). -/
inductive RenderState where
  | idle
  | rendering
  | redrawing
deriving DecidableEq, Repr

/-- A chart as seen by the render/redraw engine: its state plus counters
of completed render and redraw passes. -/
structure SMChart where
  state : RenderState
  rendersDone : Nat
  redrawsDone : Nat
deriving DecidableEq, Repr

/-- Modelled from the spec: `redraw()` (spec 4.4) — a no-op returning the
chart unchanged when already in `redrawing`; otherwise performs the full
`idle → redrawing → idle` pass. -/
def smRedraw (c : SMChart) : SMChart :=
  if c.state = .redrawing then c
  else { c with state := .idle, redrawsDone := c.redrawsDone + 1 }

/-- Modelled from the spec: `render()` (spec 4.4) — a no-op returning the
chart unchanged when already in `rendering`; otherwise performs the full
`idle → rendering → idle` pass. -/
def smRender (c : SMChart) : SMChart :=
  if c.state = .rendering then c
  else { c with state := .idle, rendersDone := c.rendersDone + 1 }

/-! ### CboxMenu checked-state (single-select redraw) -/

/-- JavaScript strict equality `key === filterResult` as used at
`src/charts/cbox-menu.js` line 115 (`self.keyAccessor()(d) === self.filter()`).
A primitive key equals the result only when the result is that single
primitive value; `===` against `null` or against an array (a sequence or a
range instance) is false for a primitive key. -/
def jsKeyEqFilterResult (k : Int) : FilterResult → Bool
  | .single (.plain v) => k == v
  | _ => false

/-- `CboxMenu._doRedraw` single-select branch (`src/charts/cbox-menu.js`
lines 109-117): when the chart has a filter and is not in multiple mode,
an option for datum with key `k` is checked iff
`keyAccessor()(d) === filter()`. -/
def cboxSingleChecked (c : FilterChart) (k : Int) : Bool :=
  jsKeyEqFilterResult k (filterNoArg c)

/-! ### BubbleMixin.bubbleR (`src/base/bubble-mixin.js` lines 119-126) -/

/-- A bubble chart as needed by `bubbleR`: the radius scale `r()` (whose
output is `none` when the scale yields `NaN`) and the radius value
accessor.  A datum is identified with an integer; the accessor maps it to
the radius value. -/
structure BubbleChart where
  rScale : Int → Option Int
  rValueAccessor : Int → Int

/-- `bubbleR(d)` (`src/base/bubble-mixin.js` lines 119-126):
`const value = this.radiusValueAccessor()(d); let r = this.r()(value);
if (isNaN(r) || value <= 0) { r = 0; } return r;` — `value` is written out
as `c.rValueAccessor d` at both of its uses. -/
def bubbleR (c : BubbleChart) (d : Int) : Int :=
  match c.rScale (c.rValueAccessor d) with
  | none => 0
  | some r => if c.rValueAccessor d ≤ 0 then 0 else r

/-! ### Legend (`src/base/legend.js`) -/

/-- An argument passed to a JS function: a number or a non-numeric value
(`utils.isNumber` distinguishes exactly these). -/
inductive JsArg where
  | num (n : Int)
  | nonNum
deriving DecidableEq, Repr

/-- `Array.prototype.slice(0, n)` on a list: a non-negative `n` takes the
first `n` elements; a negative `n` counts from the end. -/
def jsSlice (l : List Nat) (n : Int) : List Nat :=
  if 0 ≤ n then l.take n.toNat else l.take (l.length - (-n).toNat)

/-- The legend widget: the limit `_maxItems` (`undefined` is `none`) and
the parent's `legendables()` list, each legendable identified by a
number. -/
structure Legend where
  maxItems : Option Int
  parentLegendables : List Nat
deriving DecidableEq, Repr

/-- `Legend.maxItems(maxItems)` setter (`src/base/legend.js` lines
285-291): `this._maxItems = utils.isNumber(maxItems) ? maxItems :
undefined`. -/
def legendSetMaxItems (lg : Legend) (arg : JsArg) : Legend :=
  { lg with maxItems := match arg with | .num n => some n | .nonNum => none }

/-- The entries displayed by `Legend.render()` (`src/base/legend.js` lines
41-45): `let legendables = self._parent.legendables(); if (self._maxItems
!== undefined) { legendables = legendables.slice(0, self._maxItems); }` -/
def legendRender (lg : Legend) : List Nat :=
  match lg.maxItems with
  | some n => jsSlice lg.parentLegendables n
  | none => lg.parentLegendables

/-! ### NumberDisplay (the number-display chart source) -/

/-- A JavaScript value as handled by the number display: a scalar number,
a `{key, value}` row, or `null`. -/
inductive JsVal where
  | num (n : Int)
  | kvObj (k v : Int)
  | nullV
deriving DecidableEq, Repr

/-- The number display's ordering function, set in its constructor:
`this.ordering(kv => kv.value)` (rows from `group.all()` are `{key,value}`
objects; the other shapes do not occur among rows). -/
def ndOrdering : JsVal → Int
  | .kvObj _ v => v
  | .num n => n
  | .nullV => 0

/-- Modelled from the spec: `BaseMixin._computeOrderedGroups` (missing
`base-mixin.js`) sorts the rows ascending by the chart's ordering
function. -/
def computeOrderedGroups (all : List JsVal) : List JsVal :=
  all.mergeSort (fun a b => ndOrdering a ≤ ndOrdering b)

/-- `NumberDisplay._maxBin` (number-display source lines 110-116):
`if (!all.length) { return null; } const sorted =
this._computeOrderedGroups(all); return sorted[sorted.length - 1];` -/
def maxBin (all : List JsVal) : JsVal :=
  match (computeOrderedGroups all).getLast? with
  | none => .nullV
  | some x => x

/-- The external data group bound to a number display: `valueFn = some x`
when the group exposes `.value()` (a `groupAll`), returning `x`;
`allRows` is what `group.all()` returns. -/
structure NDGroup where
  valueFn : Option JsVal
  allRows : List JsVal
deriving DecidableEq, Repr

/-- A number display chart: its bound group, its value accessor, the value
currently displayed (`_lastValue`), and the external dimension's filter
list (which a redraw must neither consult nor change). -/
structure NDChart where
  group : NDGroup
  valueAccessor : JsVal → JsVal
  lastValue : Option JsVal
  dimFilters : List FilterValue

/-- The number display's data callback (number-display source lines
47-50): `const valObj = group.value ? group.value() : this._maxBin(
group.all()); return this.valueAccessor()(valObj);` -/
def ndDataValue (c : NDChart) : JsVal :=
  c.valueAccessor
    (match c.group.valueFn with
     | some x => x
     | none => maxBin c.group.allRows)

/-- `NumberDisplay._doRedraw` (lines 160-162) delegates to `_doRender`,
which recomputes `newValue = this.value()` from the data callback and
writes it into the displayed span (`_lastValue`). -/
def ndRedraw (c : NDChart) : NDChart :=
  { c with lastValue := some (ndDataValue c) }

/-! ### Concrete instances used in counterexamples and witnesses -/

/-- An exact-filter chart with two active filters. -/
def c5Chart : FilterChart := ⟨[.plain 1, .plain 2], false, [.plain 1, .plain 2]⟩

/-- An exact-filter chart whose single active filter differs from the
toggled value. -/
def c5ChartAbsent : FilterChart := ⟨[.plain 2], false, [.plain 2]⟩

/-- A radius scale yielding `NaN` (modelled `none`) on non-positive input
and the input itself otherwise. -/
def posIdScale (v : Int) : Option Int := if 0 < v then some v else none

/-- A bubble chart whose radius scale always yields `-5`. -/
def negScaleChart : BubbleChart := ⟨fun _ => some (-5), fun d => d⟩

/-- A bubble chart with the scale `posIdScale` and identity accessor. -/
def posScaleChart : BubbleChart := ⟨posIdScale, fun d => d⟩

/-- A legend over two legendables with no item limit set. -/
def lg0 : Legend := ⟨none, [10, 20]⟩

/-- An ordinary data group (no `.value()`), two `{key, value}` rows. -/
def ndG : NDGroup := ⟨none, [.kvObj 1 5, .kvObj 2 3]⟩

/-- A number display on `ndG` with a stale displayed value and an active
dimension filter. -/
def ndC : NDChart := ⟨ndG, id, none, [.plain 7]⟩

/-- A number display on the same group with different cached state and
dimension filters. -/
def ndC2 : NDChart := ⟨ndG, id, some (.num 0), []⟩

/-- A `groupAll`-style group exposing `.value() = 42`. -/
def ndGA : NDGroup := ⟨some (.num 42), []⟩

/-- A number display bound to the aggregate-only group `ndGA`. -/
def ndCA : NDChart := ⟨ndGA, id, none, []⟩

/-! ## Theorems -/

/-- C7: immediately after `filterAll()` returns, `hasFilter()` is false,
`filters()` is the empty sequence, and the filters on the chart's
underlying dimension are cleared. -/
theorem filterAll_clears (c : FilterChart) :
    hasFilter (filterAll c) = false ∧ (filterAll c).filters = [] ∧
      (filterAll c).dimensionFilters = [] :=
  ⟨rfl, rfl, rfl⟩

/-- C3: calling `redraw()` on a chart already in the `redrawing` state (and
analogously `render()` on a chart in the `rendering` state) is a no-op
returning the same chart with its state unchanged, not a queued second
pass. -/
theorem redraw_reentrant_noop (c c' : SMChart)
    (h : c.state = .redrawing) (h' : c'.state = .rendering) :
    smRedraw c = c ∧ smRender c' = c' := by
  constructor
  · simp [smRedraw, h]
  · simp [smRender, h']

/-- Witness for C3: a concrete chart in `redrawing` state is unchanged by
`redraw()`, and one in `rendering` state is unchanged by `render()`. -/
theorem redraw_reentrant_noop_witness :
    smRedraw ⟨.redrawing, 0, 0⟩ = ⟨.redrawing, 0, 0⟩ ∧
      smRender ⟨.rendering, 0, 0⟩ = ⟨.rendering, 0, 0⟩ :=
  redraw_reentrant_noop ⟨.redrawing, 0, 0⟩ ⟨.rendering, 0, 0⟩ rfl rfl

/-- C2: during a `redrawAll` broadcast over a group, every chart is
attempted — a chart whose draw collaborator throws leaves the others'
redraws unaffected (each non-throwing chart completes exactly one redraw),
and the aggregate failure report returned to the caller names exactly the
throwing charts, in order. -/
theorem redrawAll_collects_failures (cs : List GroupChart) :
    (redrawAll cs).1 =
        cs.map (fun c =>
          if c.throws then c
          else { c with completedRedraws := c.completedRedraws + 1 }) ∧
      (redrawAll cs).2 = (cs.filter (fun c => c.throws)).map (fun c => c.id) := by
  induction cs with
  | nil => exact ⟨rfl, rfl⟩
  | cons c cs ih =>
    by_cases h : c.throws = true
    · simp [redrawAll, h, ih.1, ih.2]
    · simp [redrawAll, h, ih.1, ih.2]

/-- C1 counterexample: in `CboxMenu.onChange` the filter application is
*not* part of the deferred unit of work — it runs synchronously before
`events.trigger` queues the broadcast.  Starting from an unfiltered chart,
`onChange` with a single selected value has already changed the chart's
filter state by the time it returns, before any queued task runs. -/
theorem cbox_onChange_sync_filter_counterexample :
    ¬ ((cboxOnChange ⟨⟨[], false, []⟩, false, [], 0⟩ (.one (.plain 1))).fc =
        (⟨⟨[], false, []⟩, false, [], 0⟩ : CoordChart).fc) := by
  decide

/-- C1 (amended): `BubbleMixin.onClick` queues the filter application and
the redraw broadcast together as a single deferred task, leaving the
chart's filter state untouched until the task runs; `CboxMenu.onChange`
applies its filter mutations synchronously and queues only the
`redrawGroup` broadcast as a single deferred task.  In both handlers one
interaction queues exactly one task and performs no broadcast itself, and
running one queued task performs exactly one broadcast — so the filter
mutations of one interaction collapse into one broadcast. -/
theorem interaction_queues_one_broadcast (st : CoordChart) (val : CboxVal)
    (k : FilterValue) :
    (cboxOnChange st val).queue = st.queue ++ [.redrawGroup] ∧
      (cboxOnChange st val).broadcasts = st.broadcasts ∧
      (bubbleOnClick st k).queue = st.queue ++ [.filterAndRedrawGroup k] ∧
      (bubbleOnClick st k).fc = st.fc ∧
      (bubbleOnClick st k).broadcasts = st.broadcasts ∧
      (∀ t, (runTask st t).broadcasts = st.broadcasts + 1) := by
  refine ⟨?_, ?_, rfl, rfl, rfl, ?_⟩
  · cases val <;> rfl
  · cases val <;> rfl
  · intro t; cases t <;> rfl

/-- Helper: on this value type, the filter-storage equality coincides with
structural equality (ranges compare by both endpoints, plain values by
value, and a plain value never equals a range). -/
theorem filterValueEq_iff_eq (a b : FilterValue) :
    filterValueEq a b = true ↔ a = b := by
  cases a <;> cases b <;> simp [filterValueEq]

/-- Helper: `hasFilter(value)` is membership in the mirrored filter list. -/
theorem hasFilterVal_iff_mem (c : FilterChart) (v : FilterValue) :
    hasFilterVal c v = true ↔ v ∈ c.filters := by
  simp only [hasFilterVal, List.any_eq_true]
  constructor
  · rintro ⟨w, hw, he⟩
    exact ((filterValueEq_iff_eq w v).mp he) ▸ hw
  · intro hv
    exact ⟨v, hv, (filterValueEq_iff_eq v v).mpr rfl⟩

/-- Helper: removing the first equal member agrees with `List.erase`. -/
theorem removeFirstFilter_eq_erase (v : FilterValue) (l : List FilterValue) :
    removeFirstFilter v l = l.erase v := by
  induction l with
  | nil => rfl
  | cons w ws ih =>
    rw [removeFirstFilter, List.erase_cons]
    by_cases h : w = v
    · simp [h, filterValueEq_iff_eq v v |>.mpr rfl, (filterValueEq_iff_eq w v)]
    · have hne : filterValueEq w v = false := by
        cases hb : filterValueEq w v
        · rfl
        · exact absurd ((filterValueEq_iff_eq w v).mp hb) h
      have hbe : (w == v) = false := by
        simp [beq_eq_false_iff_ne, h]
      simp [hne, hbe, ih]

/-- C4: `filter()` with no argument returns the single filter value when
exactly one filter is active, the ordered sequence when more than one is
active, and `null` when none is active; and `CboxMenu._doRedraw`'s
single-select checked test `keyAccessor()(d) === filter()` succeeds for a
key exactly when that key is the unique active filter. -/
theorem filter_noArg_shape (c : FilterChart) :
    (c.filters = [] → filterNoArg c = .nullR) ∧
      (∀ v, c.filters = [v] → filterNoArg c = .single v) ∧
      (2 ≤ c.filters.length → filterNoArg c = .seq c.filters) ∧
      (∀ k, cboxSingleChecked c k = true ↔ c.filters = [.plain k]) := by
  refine ⟨?_, ?_, ?_, ?_⟩
  · intro h; simp [filterNoArg, h]
  · intro v h; simp [filterNoArg, h]
  · intro h
    match hf : c.filters with
    | [] => rw [hf] at h; simp at h
    | [v] => rw [hf] at h; simp at h
    | v :: w :: vs => simp [filterNoArg, hf]
  · intro k
    match hf : c.filters with
    | [] => simp [cboxSingleChecked, filterNoArg, hf, jsKeyEqFilterResult]
    | [v] =>
      cases v with
      | plain a =>
        simp only [cboxSingleChecked, filterNoArg, hf, jsKeyEqFilterResult, beq_iff_eq,
          List.cons.injEq, and_true, FilterValue.plain.injEq]
        exact eq_comm
      | range a b =>
        simp [cboxSingleChecked, filterNoArg, hf, jsKeyEqFilterResult]
    | v :: w :: vs => simp [cboxSingleChecked, filterNoArg, hf, jsKeyEqFilterResult]

/-- Witness for C4: on concrete charts, no filter yields `null`, one filter
yields the single value, two filters yield the sequence, and the
single-select checked test holds for the matching key. -/
theorem filter_noArg_shape_witness :
    filterNoArg ⟨[], false, []⟩ = .nullR ∧
      filterNoArg ⟨[.plain 2], false, []⟩ = .single (.plain 2) ∧
      filterNoArg ⟨[.plain 1, .plain 2], false, []⟩ = .seq [.plain 1, .plain 2] ∧
      (cboxSingleChecked ⟨[.plain 2], false, []⟩ 2 = true ↔
        (⟨[.plain 2], false, []⟩ : FilterChart).filters = [.plain 2]) :=
  ⟨(filter_noArg_shape ⟨[], false, []⟩).1 rfl,
   (filter_noArg_shape ⟨[.plain 2], false, []⟩).2.1 (.plain 2) rfl,
   (filter_noArg_shape ⟨[.plain 1, .plain 2], false, []⟩).2.2.1 (by decide),
   (filter_noArg_shape ⟨[.plain 2], false, []⟩).2.2.2 2⟩

/-- Helper: on an exact-filter chart, one `filter(v)` call erases the first
equal member when present, else appends; the filter type is unchanged. -/
theorem applyFilter_filters_exact (c : FilterChart) (v : FilterValue)
    (hEx : c.rangeBased = false) :
    (applyFilter c v).filters =
        (if v ∈ c.filters then c.filters.erase v else c.filters ++ [v]) ∧
      (applyFilter c v).rangeBased = false := by
  by_cases hm : v ∈ c.filters
  · have hv : hasFilterVal c v = true := (hasFilterVal_iff_mem c v).mpr hm
    simp [applyFilter, syncDimension, hEx, hv, hm, removeFirstFilter_eq_erase]
  · have hv : hasFilterVal c v = false := by
      cases hb : hasFilterVal c v
      · rfl
      · exact absurd ((hasFilterVal_iff_mem c v).mp hb) hm
    simp [applyFilter, syncDimension, hEx, hv, hm]

/-- C5 counterexample: on an exact-filter chart holding `[1, 2]`, toggling
the value `1` twice yields `[2, 1]`, not the original ordered sequence
`[1, 2]` — the removed member is re-added at the end, so `filters()` is
not left equal to what it was. -/
theorem exact_toggle_roundtrip_counterexample :
    ¬ ((applyFilter (applyFilter c5Chart (.plain 1)) (.plain 1)).filters =
        c5Chart.filters) := by
  decide

/-- C5 (amended): on an exact-filter chart with no two equal active
filters, toggling the same value twice leaves `filters()` containing the
same members (a permutation of the original sequence); when the value was
not already an active filter the sequence is left exactly unchanged. -/
theorem exact_toggle_roundtrip_perm (c : FilterChart) (v : FilterValue)
    (hEx : c.rangeBased = false) (hNd : c.filters.Nodup) :
    ((applyFilter (applyFilter c v) v).filters).Perm c.filters ∧
      (hasFilterVal c v = false →
        (applyFilter (applyFilter c v) v).filters = c.filters) := by
  obtain ⟨h1f, h1r⟩ := applyFilter_filters_exact c v hEx
  obtain ⟨h2f, _⟩ := applyFilter_filters_exact (applyFilter c v) v h1r
  by_cases hm : v ∈ c.filters
  · rw [if_pos hm] at h1f
    have hnm : v ∉ (applyFilter c v).filters := by
      rw [h1f]
      exact hNd.not_mem_erase
    rw [if_neg hnm, h1f] at h2f
    refine ⟨?_, ?_⟩
    · rw [h2f]
      have hp1 : (c.filters.erase v ++ [v]).Perm ([v] ++ c.filters.erase v) :=
        List.perm_append_comm
      have hp2 : (v :: c.filters.erase v).Perm c.filters :=
        (List.perm_cons_erase hm).symm
      exact hp1.trans hp2
    · intro hF
      have hT := (hasFilterVal_iff_mem c v).mpr hm
      rw [hF] at hT
      exact absurd hT (by simp)
  · rw [if_neg hm] at h1f
    have hmm : v ∈ (applyFilter c v).filters := by rw [h1f]; simp
    rw [if_pos hmm, h1f] at h2f
    have herase : (c.filters ++ [v]).erase v = c.filters := by
      rw [List.erase_append_right _ hm]
      simp
    rw [herase] at h2f
    exact ⟨by rw [h2f], fun _ => h2f⟩

/-- Witness for C5 amended: toggling `1` twice on the chart holding
`[1, 2]` yields a permutation of `[1, 2]`; toggling `1` twice on the chart
holding only `[2]` restores `[2]` exactly. -/
theorem exact_toggle_roundtrip_perm_witness :
    ((applyFilter (applyFilter c5Chart (.plain 1)) (.plain 1)).filters).Perm
        c5Chart.filters ∧
      (applyFilter (applyFilter c5ChartAbsent (.plain 1)) (.plain 1)).filters =
        c5ChartAbsent.filters :=
  ⟨(exact_toggle_roundtrip_perm c5Chart (.plain 1) rfl (by decide)).1,
   (exact_toggle_roundtrip_perm c5ChartAbsent (.plain 1) rfl (by decide)).2 rfl⟩

/-- C6: two range-shaped filter values are equal iff both endpoints match
(so distinct instances of `[10, 20]` are equal), and on a chart whose
filter type is range-based, applying a new filter value replaces the
existing filter set (mirror and dimension) rather than toggling
membership. -/
theorem range_eq_and_ranged_replaces (a b x y : Int) (c : FilterChart)
    (v : FilterValue) (hR : c.rangeBased = true) :
    (filterValueEq (.range a b) (.range x y) = true ↔ a = x ∧ b = y) ∧
      (applyFilter c v).filters = [v] ∧
      (applyFilter c v).dimensionFilters = [v] := by
  refine ⟨by simp [filterValueEq], ?_, ?_⟩ <;>
    simp [applyFilter, syncDimension, hR]

/-- Witness for C6: the two distinct `[10, 20]` range instances are equal,
and applying `[10, 20]` to a range-based chart already filtered on
`[0, 5]` leaves exactly `[[10, 20]]`. -/
theorem range_eq_and_ranged_replaces_witness :
    (filterValueEq (.range 10 20) (.range 10 20) = true ↔
        (10 : Int) = 10 ∧ (20 : Int) = 20) ∧
      (applyFilter ⟨[.range 0 5], true, [.range 0 5]⟩ (.range 10 20)).filters =
        [.range 10 20] :=
  ⟨(range_eq_and_ranged_replaces 10 20 10 20 ⟨[.range 0 5], true, [.range 0 5]⟩
      (.range 10 20) rfl).1,
   (range_eq_and_ranged_replaces 10 20 10 20 ⟨[.range 0 5], true, [.range 0 5]⟩
      (.range 10 20) rfl).2.1⟩

/-- C8: a redraw of a number display recomputes the displayed value from
its bound data group on every call — the result depends only on the group
and the value accessor, never on the cached display or the dimension's
filters, and the dimension's filters are left untouched; the value is
`valueAccessor(group.value())` when the group exposes `.value()`, else
`valueAccessor` of the last bin of the ordered `group.all()` rows. -/
theorem ndRedraw_refetches_group (c c' : NDChart) (x : JsVal)
    (hG : c.group = c'.group) (hA : c.valueAccessor = c'.valueAccessor) :
    (ndRedraw c).lastValue = some (ndDataValue c) ∧
      (ndRedraw c).dimFilters = c.dimFilters ∧
      ndDataValue c = ndDataValue c' ∧
      (c.group.valueFn = some x → ndDataValue c = c.valueAccessor x) ∧
      (c.group.valueFn = none →
        ndDataValue c = c.valueAccessor (maxBin c.group.allRows)) := by
  refine ⟨rfl, rfl, ?_, ?_, ?_⟩
  · unfold ndDataValue
    rw [hG, hA]
  · intro h
    unfold ndDataValue
    rw [h]
  · intro h
    unfold ndDataValue
    rw [h]

/-- Witness for C8: on a concrete ordinary group the redraw stores the
accessor applied to the largest bin (`{key 1, value 5}`), two charts over
the same group agree regardless of cached state and dimension filters, and
on a concrete `groupAll` group the redraw uses `.value() = 42`. -/
theorem ndRedraw_refetches_group_witness :
    (ndRedraw ndC).lastValue = some (ndDataValue ndC) ∧
      (ndRedraw ndC).dimFilters = ndC.dimFilters ∧
      ndDataValue ndC = ndDataValue ndC2 ∧
      ndDataValue ndCA = ndCA.valueAccessor (.num 42) ∧
      ndDataValue ndC = ndC.valueAccessor (maxBin ndC.group.allRows) :=
  ⟨(ndRedraw_refetches_group ndC ndC2 (.num 0) rfl rfl).1,
   (ndRedraw_refetches_group ndC ndC2 (.num 0) rfl rfl).2.1,
   (ndRedraw_refetches_group ndC ndC2 (.num 0) rfl rfl).2.2.1,
   (ndRedraw_refetches_group ndCA ndCA (.num 42) rfl rfl).2.2.2.1 rfl,
   (ndRedraw_refetches_group ndC ndC2 (.num 0) rfl rfl).2.2.2.2 rfl⟩

/-- C9 counterexample: `bubbleR` is not non-negative for every datum — with
a radius scale whose output is `-5` (the scale is chart-configurable via
`r()`), a datum with positive radius value passes the `isNaN`/`<= 0` guard
and the negative scale output is returned as is. -/
theorem bubbleR_nonneg_counterexample : ¬ (0 ≤ bubbleR negScaleChart 1) := by
  decide

/-- C9 (amended): `bubbleR(d)` returns `0` whenever the radius scale yields
`NaN` on the radius value or the radius value is `≤ 0`; otherwise it
returns the scale's output unchanged — hence it is non-negative whenever
the scale's outputs are non-negative. -/
theorem bubbleR_clamps (c : BubbleChart) (d : Int) :
    (c.rScale (c.rValueAccessor d) = none → bubbleR c d = 0) ∧
      (c.rValueAccessor d ≤ 0 → bubbleR c d = 0) ∧
      (∀ r, c.rScale (c.rValueAccessor d) = some r → 0 < c.rValueAccessor d →
        bubbleR c d = r) ∧
      ((∀ v r, c.rScale v = some r → 0 ≤ r) → 0 ≤ bubbleR c d) := by
  refine ⟨?_, ?_, ?_, ?_⟩
  · intro h
    unfold bubbleR
    rw [h]
  · intro h
    unfold bubbleR
    cases hs : c.rScale (c.rValueAccessor d)
    · rfl
    · simp [h]
  · intro r hs hpos
    unfold bubbleR
    rw [hs]
    simp [not_le.mpr hpos]
  · intro hnn
    unfold bubbleR
    cases hs : c.rScale (c.rValueAccessor d) with
    | none => simp
    | some r =>
      by_cases hv : c.rValueAccessor d ≤ 0
      · simp [hv]
      · simpa [hv] using hnn _ r hs



/-- Witness for C9 amended: on `posScaleChart` (scale `NaN` on non-positive
input, identity otherwise) `bubbleR` is `0` at datum `0` (scale `NaN`) and
at `-3` (value non-positive), equals the scale output `2` at datum `2`,
and is non-negative there since that scale's outputs are. -/
theorem bubbleR_clamps_witness :
    bubbleR posScaleChart 0 = 0 ∧ bubbleR posScaleChart (-3) = 0 ∧
      bubbleR posScaleChart 2 = 2 ∧ 0 ≤ bubbleR posScaleChart 2 :=
  ⟨(bubbleR_clamps posScaleChart 0).1 rfl,
   (bubbleR_clamps posScaleChart (-3)).2.1 (by decide),
   (bubbleR_clamps posScaleChart 2).2.2.1 2 rfl (by decide),
   (bubbleR_clamps posScaleChart 2).2.2.2
     (fun v r h => by
       replace h : posIdScale v = some r := h
       unfold posIdScale at h
       by_cases h0 : 0 < v
       · rw [if_pos h0] at h
         exact (Option.some.inj h) ▸ le_of_lt h0
       · rw [if_neg h0] at h
         exact absurd h (by simp))⟩

/-- C10 counterexample: `maxItems` accepts any number, including negative
ones — after `maxItems(-1)` on a two-entry legendables list, `render()`
displays `slice(0, -1)` = all but the last entry (here one entry), not the
"first `min(n, length)` entries" (which for `n = -1` is the empty
prefix). -/
theorem legend_maxItems_counterexample :
    ¬ (legendRender (legendSetMaxItems lg0 (.num (-1))) =
        lg0.parentLegendables.take
          ((min (-1 : Int) (lg0.parentLegendables.length : Int)).toNat)) := by
  decide

/-- C10 (amended): when `maxItems` has been set to a *non-negative* number
`n`, `render()` displays exactly the first `min(n, length)` entries of the
parent's legendables (an order-preserving prefix); a negative `n` instead
follows `slice` semantics and drops entries from the end; a non-numeric
argument resets the limit to `undefined`, and every legendable is
rendered. -/
theorem legend_maxItems_limits (lg : Legend) (n : Int) (hn : 0 ≤ n) :
    legendRender (legendSetMaxItems lg (.num n)) =
        lg.parentLegendables.take
          ((min n (lg.parentLegendables.length : Int)).toNat) ∧
      legendRender (legendSetMaxItems lg .nonNum) = lg.parentLegendables := by
  refine ⟨?_, rfl⟩
  have hmin : (min n (lg.parentLegendables.length : Int)).toNat =
      min n.toNat lg.parentLegendables.length := by omega
  rw [hmin]
  show jsSlice lg.parentLegendables n = _
  unfold jsSlice
  rw [if_pos hn]
  exact List.take_eq_take.mpr (by omega)

/-- Witness for C10 amended: `maxItems(1)` on the two-entry legend displays
exactly the first entry, and a non-numeric `maxItems` argument leads to all
entries being displayed. -/
theorem legend_maxItems_limits_witness :
    legendRender (legendSetMaxItems lg0 (.num 1)) =
        lg0.parentLegendables.take
          ((min (1 : Int) (lg0.parentLegendables.length : Int)).toNat) ∧
      legendRender (legendSetMaxItems lg0 .nonNum) = lg0.parentLegendables :=
  legend_maxItems_limits lg0 1 (by decide)

end DcJs
